import Mathlib

/-!
Shallow embedding of the dispatch and persistence machinery of the
llm_twin repository (src/llm_engineering and src/steps), together with
proofs of the behavioural claims about it.

External collaborators (the MongoDB client, the thread pool, the concrete
cleaning/chunking/embedding handler bodies) are modelled as explicit
parameters describing their observable outcomes; Python exceptions are
modelled with Except; Python dicts are modelled as association lists with
unique keys, built in the same order as the source builds them.
-/

/-- DataCategory from src/llm_engineering/domain/types.py: the closed
enumeration of document kinds, whose string value is the collection name. -/
inductive DataCategory where
  | prompt
  | queries
  | instruct_dataset_samples
  | instruct_dataset
  | preference_dataset_samples
  | preference_dataset
  | posts
  | articles
  | repositories
deriving DecidableEq, Repr

/-- Decimal digit character, modelling the canonical textual rendering of
identifiers (Python str on a UUID value; we render the 128-bit value in
decimal, which is an equally canonical injective wire format). -/
def digitChar (d : Nat) : Char := Char.ofNat (48 + d)

/-- Test for a decimal digit character. -/
def isDigitChar (c : Char) : Bool := 48 ≤ c.toNat && c.toNat ≤ 57

/-- Numeric value of a digit character. -/
def digitVal (c : Char) : Nat := c.toNat - 48

/-- Digit list of a natural number, most significant first; the fuel
argument only bounds the recursion depth. -/
def natCharsAux : Nat → Nat → List Char
  | 0, n => [digitChar n]
  | fuel + 1, n =>
    if n < 10 then [digitChar n] else natCharsAux fuel (n / 10) ++ [digitChar (n % 10)]

/-- Digit list of a natural number, most significant first. -/
def natChars (n : Nat) : List Char := natCharsAux n n

/-- Value of a digit list, folding most significant first. -/
def charsVal (cs : List Char) : Nat := cs.foldl (fun a c => a * 10 + digitVal c) 0

/-- Canonical string form of an identifier (models str(uuid) as an
injective canonical rendering of the 128-bit value). -/
def uuidStr (n : Nat) : String := String.mk (natChars n)

/-- Parse of the canonical identifier string (models the UUID validation
pydantic performs when a model is constructed from stored data). -/
def uuidParse (s : String) : Option Nat :=
  if !s.data.isEmpty && s.data.all isDigitChar then some (charsVal s.data) else none

theorem digitVal_digitChar (d : Nat) (h : d < 10) : digitVal (digitChar d) = d := by
  interval_cases d <;> decide

theorem isDigitChar_digitChar (d : Nat) (h : d < 10) : isDigitChar (digitChar d) = true := by
  interval_cases d <;> decide

theorem charsVal_append_digit (cs : List Char) (c : Char) :
    charsVal (cs ++ [c]) = charsVal cs * 10 + digitVal c := by
  simp [charsVal, List.foldl_append]

theorem charsVal_natCharsAux (fuel : Nat) :
    ∀ n : Nat, n ≤ fuel + 9 → charsVal (natCharsAux fuel n) = n := by
  induction fuel with
  | zero =>
    intro n hn
    have h : n < 10 := by omega
    simp [natCharsAux, charsVal, digitVal_digitChar n h]
  | succ fuel ih =>
    intro n hn
    by_cases h : n < 10
    · simp [natCharsAux, h, charsVal, digitVal_digitChar n h]
    · have hq : n / 10 * 10 ≤ n := Nat.div_mul_le_self n 10
      have hq1 : 1 ≤ n / 10 := by
        rw [Nat.le_div_iff_mul_le (by omega)]
        omega
      have hrec : n / 10 ≤ fuel + 9 := by omega
      simp only [natCharsAux, h, if_false]
      rw [charsVal_append_digit, ih (n / 10) hrec,
        digitVal_digitChar (n % 10) (Nat.mod_lt n (by omega))]
      omega

theorem charsVal_natChars (n : Nat) : charsVal (natChars n) = n :=
  charsVal_natCharsAux n n (by omega)

theorem natChars_ne_nil (n : Nat) : natChars n ≠ [] := by
  unfold natChars
  cases n with
  | zero => simp [natCharsAux]
  | succ m =>
    simp only [natCharsAux]
    by_cases h : m + 1 < 10 <;> simp [h]

theorem natCharsAux_all_digits (fuel : Nat) :
    ∀ n : Nat, n ≤ fuel + 9 → (natCharsAux fuel n).all isDigitChar = true := by
  induction fuel with
  | zero =>
    intro n hn
    have h : n < 10 := by omega
    simp [natCharsAux, isDigitChar_digitChar n h]
  | succ fuel ih =>
    intro n hn
    by_cases h : n < 10
    · simp [natCharsAux, h, isDigitChar_digitChar n h]
    · have hq : n / 10 * 10 ≤ n := Nat.div_mul_le_self n 10
      have hq1 : 1 ≤ n / 10 := by
        rw [Nat.le_div_iff_mul_le (by omega)]
        omega
      have hrec : n / 10 ≤ fuel + 9 := by omega
      simp only [natCharsAux, h, if_false, List.all_append]
      rw [ih (n / 10) hrec]
      simp [isDigitChar_digitChar (n % 10) (Nat.mod_lt n (by omega))]

theorem natChars_all_digits (n : Nat) : (natChars n).all isDigitChar = true :=
  natCharsAux_all_digits n n (by omega)

/-- Identifier stringification round-trips exactly. -/
theorem uuidParse_uuidStr (n : Nat) : uuidParse (uuidStr n) = some n := by
  have h1 := natChars_ne_nil n
  have h2 := natChars_all_digits n
  simp only [uuidParse, uuidStr]
  simp [h1, h2, charsVal_natChars, List.isEmpty_iff]

/-- Value stored in a Mongo document field: a raw identifier (Python
uuid.UUID), a string, or a nested string-keyed mapping (the free-form
content field of a Document). -/
inductive PVal where
  | vuuid (u : Nat)
  | vstr (s : String)
  | vdict (d : List (String × String))
deriving DecidableEq, Repr

/-- Python dict modelled as an ordered association list with unique keys. -/
abbrev MDict := List (String × PVal)

/-- Membership / subscript lookup on a dict. -/
def dictLookup (k : String) (d : MDict) : Option PVal := d.lookup k

/-- Python dict.pop: removes the key and returns its value together with
the remaining dict (order of the other entries preserved). -/
def dictPop (k : String) : MDict → Option (PVal × MDict)
  | [] => none
  | (k2, v) :: rest =>
    if k2 == k then some (v, rest)
    else
      match dictPop k rest with
      | some (v2, rest2) => some (v2, (k2, v) :: rest2)
      | none => none

/-- Python str() applied to a field value (only ever reached on identifier
or string values in to_mongo; the dict branch models repr of a mapping). -/
def pvalStr : PVal → String
  | .vuuid u => uuidStr u
  | .vstr s => s
  | .vdict _ => ""

/-- The loop in to_mongo / model_dump that replaces every uuid.UUID value
by its string form, leaving other values untouched. -/
def stringify (d : MDict) : MDict :=
  d.map (fun kv =>
    match kv with
    | (k, PVal.vuuid u) => (k, PVal.vstr (uuidStr u))
    | kv => kv)

/-- Errors a deserialization (from_mongo plus pydantic construction) can
raise: ValueError on empty data, KeyError on a missing primary key, and a
pydantic validation error on missing or ill-typed fields. -/
inductive DeserErr where
  | valueError
  | keyError
  | validationError
deriving DecidableEq, Repr

/-- Field read as a string, as pydantic validation of a str field. -/
def getStr (k : String) (d : MDict) : Option String :=
  match dictLookup k d with
  | some (.vstr s) => some s
  | _ => none

/-- Field read as a nested mapping, as pydantic validation of a dict field. -/
def getDict (k : String) (d : MDict) : Option (List (String × String)) :=
  match dictLookup k d with
  | some (.vdict m) => some m
  | _ => none

/-- Validation of a UUID4 field: pydantic accepts a uuid value or a
canonical string form of one. -/
def parseUUID : PVal → Option Nat
  | .vuuid u => some u
  | .vstr s => uuidParse s
  | .vdict _ => none

/-- Field read as an identifier. -/
def getUUID (k : String) (d : MDict) : Option Nat :=
  match dictLookup k d with
  | some v => parseUUID v
  | none => none

/-- UserDocument from src/llm_engineering/domain/documents.py: an
identifiable record (id generated at construction when not supplied) with
first and last name; collection name "users". Identifiers are modelled as
the 128-bit numeric value of the UUID. -/
structure UserDocument where
  id : Nat
  first_name : String
  last_name : String
deriving DecidableEq, Repr

/-- The __eq__ of NoSQLBaseDocument (src/llm_engineering/domain/base/nosql.py
lines 28-32) restricted to two values of the same concrete class: equality
of the UUID4 ids only. -/
def UserDocument.eq (a b : UserDocument) : Bool := a.id == b.id

/-- The __hash__ of NoSQLBaseDocument (nosql.py lines 34-35): the hash of
the id alone; CPython hashes a nonnegative int modulo the Mersenne prime. -/
def UserDocument.hash (a : UserDocument) : Nat := a.id % (2 ^ 61 - 1)

/-- The pydantic BaseModel.model_dump of a UserDocument before the
override's uuid-stringifying loop runs: fields in declaration order. -/
def UserDocument.base_dump (u : UserDocument) : MDict :=
  [("id", PVal.vuuid u.id),
   ("first_name", PVal.vstr u.first_name),
   ("last_name", PVal.vstr u.last_name)]

/-- The overridden model_dump (nosql.py lines 67-74): the base dump with
every uuid value stringified. -/
def UserDocument.model_dump (u : UserDocument) : MDict := stringify u.base_dump

/-- The to_mongo of NoSQLBaseDocument (nosql.py lines 50-64): dump the
model, rename id to the store primary key _id applying str(), then
stringify any remaining uuid values. -/
def UserDocument.to_mongo (u : UserDocument) : MDict :=
  let parsed := u.model_dump
  let parsed :=
    if (dictLookup "_id" parsed).isNone && (dictLookup "id" parsed).isSome then
      match dictPop "id" parsed with
      | some (v, rest) => rest ++ [("_id", PVal.vstr (pvalStr v))]
      | none => parsed
    else parsed
  stringify parsed

/-- The from_mongo of NoSQLBaseDocument (nosql.py lines 38-47) instantiated
at UserDocument: reject empty data with ValueError, pop _id (KeyError when
absent), then construct the model from the remaining fields plus id, with
pydantic validating every field. -/
def UserDocument.from_mongo (data : MDict) : Except DeserErr UserDocument :=
  if data.isEmpty then .error .valueError
  else
    match dictPop "_id" data with
    | none => .error .keyError
    | some (idv, rest) =>
      let args := rest ++ [("id", idv)]
      match parseUUID idv, getStr "first_name" args, getStr "last_name" args with
      | some u, some fn, some ln => .ok { id := u, first_name := fn, last_name := ln }
      | _, _, _ => .error .validationError

example : UserDocument.from_mongo (UserDocument.to_mongo ⟨37, "Paul", "Iusztin"⟩) =
    .ok ⟨37, "Paul", "Iusztin"⟩ := by rfl

theorem to_mongo_eq (u : UserDocument) :
    UserDocument.to_mongo u =
      [("first_name", PVal.vstr u.first_name),
       ("last_name", PVal.vstr u.last_name),
       ("_id", PVal.vstr (uuidStr u.id))] := by
  simp [UserDocument.to_mongo, UserDocument.model_dump, UserDocument.base_dump,
    stringify, dictLookup, dictPop, pvalStr]

/-- C6: serializing then deserializing any record yields an object equal to
the original by identifier (here in fact equal outright); after
serialization the dictionary holds the store primary key _id as the
stringified identifier and no longer holds the in-memory field id. -/
theorem C6_round_trip_identity (u : UserDocument) :
    (∃ v, UserDocument.from_mongo (UserDocument.to_mongo u) = .ok v ∧ UserDocument.eq v u = true)
      ∧ dictLookup "_id" (UserDocument.to_mongo u) = some (PVal.vstr (uuidStr u.id))
      ∧ dictLookup "id" (UserDocument.to_mongo u) = none := by
  rw [to_mongo_eq]
  refine ⟨⟨u, ?_, ?_⟩, ?_, ?_⟩
  · simp [UserDocument.from_mongo, dictPop, parseUUID, getStr, dictLookup,
      List.lookup, uuidParse_uuidStr]
  · simp [UserDocument.eq]
  · simp [dictLookup, List.lookup]
  · simp [dictLookup, List.lookup]

/-- C7: equality and hash of records are functions of the identifier alone:
equal identifiers give equal records and equal hashes whatever the other
fields are; distinct identifiers give unequal records even with identical
other fields. -/
theorem C7_eq_hash_on_id (a b : UserDocument) :
    (a.id = b.id → UserDocument.eq a b = true ∧ UserDocument.hash a = UserDocument.hash b)
      ∧ (a.id ≠ b.id → UserDocument.eq a b = false) := by
  constructor
  · intro h
    simp [UserDocument.eq, UserDocument.hash, h]
  · intro h
    simp [UserDocument.eq, h]

/-- Witness for C7 at concrete records: same identifier with different
names versus same names with different identifiers. -/
theorem C7_eq_hash_on_id_witness :
    (UserDocument.eq ⟨5, "Ada", "Lovelace"⟩ ⟨5, "Grace", "Hopper"⟩ = true
        ∧ UserDocument.hash ⟨5, "Ada", "Lovelace"⟩ = UserDocument.hash ⟨5, "Grace", "Hopper"⟩)
      ∧ UserDocument.eq ⟨5, "Ada", "Lovelace"⟩ ⟨6, "Ada", "Lovelace"⟩ = false :=
  ⟨(C7_eq_hash_on_id ⟨5, "Ada", "Lovelace"⟩ ⟨5, "Grace", "Hopper"⟩).1 (by decide),
   (C7_eq_hash_on_id ⟨5, "Ada", "Lovelace"⟩ ⟨6, "Ada", "Lovelace"⟩).2 (by decide)⟩

/-- Error surfaced by get_or_create: either the store OperationFailure that
the except block logs and re-raises, or a deserialization error escaping
the found-document branch. -/
inductive GocErr where
  | opFailure
  | deser (e : DeserErr)
deriving DecidableEq, Repr

/-- The save of NoSQLBaseDocument (nosql.py lines 79-88): serialize with
to_mongo and insert; a WriteError from the store is caught and logged and
the call returns an absent result. The store's reaction to the inserted
dictionary is the insert parameter (true = inserted, false = WriteError). -/
def UserDocument.save (insert : MDict → Bool) (u : UserDocument) : Option UserDocument :=
  if insert u.to_mongo then some u else none

/-- The get_or_create of NoSQLBaseDocument (nosql.py lines 93-108)
instantiated at UserDocument, the class it is invoked on in
query_data_warehouse.py. The store's find_one outcome is passed explicitly
(error = OperationFailure raised); when nothing is found a new instance is
constructed from the filter options with a fresh random identifier and
saved. An OperationFailure is caught, logged, and then re-raised by the
bare raise statement. -/
def UserDocument.get_or_create (find_one : Except Unit (Option MDict)) (insert : MDict → Bool)
    (freshId : Nat) (first_name last_name : String) : Except GocErr (Option UserDocument) :=
  match find_one with
  | .ok (some found) =>
    match UserDocument.from_mongo found with
    | .ok doc => .ok (some doc)
    | .error e => .error (.deser e)
  | .ok none =>
    let new_instance : UserDocument :=
      { id := freshId, first_name := first_name, last_name := last_name }
    .ok (new_instance.save insert)
  | .error _ => .error .opFailure

/-- Counterexample to C2: when the store lookup raises a query failure,
get_or_create re-raises it after logging, so the failure does propagate to
the caller as an exception, contrary to the claim that only the three
fatal error kinds may surface. -/
theorem C2_counterexample :
    UserDocument.get_or_create (.error ()) (fun _ => true) 7 "Ada" "Lovelace"
      = .error GocErr.opFailure := by rfl

/-- C2 amended: when the store lookup raises a query failure, get_or_create
catches and logs it but then re-raises, so the query failure surfaces to
the caller whatever the insert behaviour, identifier, and filter are. -/
theorem C2_get_or_create_reraises (insert : MDict → Bool) (freshId : Nat)
    (first_name last_name : String) :
    UserDocument.get_or_create (.error ()) insert freshId first_name last_name
      = .error GocErr.opFailure := by
  simp [UserDocument.get_or_create]

/-- C10: when the lookup finds nothing and the insert of the newly
constructed instance hits a write conflict, get_or_create returns an
absent result instead of an instance, despite its declared return type. -/
theorem C10_get_or_create_conflict_none (insert : MDict → Bool) (freshId : Nat)
    (first_name last_name : String)
    (h : insert (UserDocument.to_mongo
      { id := freshId, first_name := first_name, last_name := last_name }) = false) :
    UserDocument.get_or_create (.ok none) insert freshId first_name last_name
      = .ok none := by
  simp [UserDocument.get_or_create, UserDocument.save, h]

/-- Witness for C10: a store that rejects every insert makes get_or_create
return the absent result on the create path. -/
theorem C10_get_or_create_conflict_none_witness :
    UserDocument.get_or_create (.ok none) (fun _ => false) 7 "Ada" "Lovelace" = .ok none :=
  C10_get_or_create_conflict_none (fun _ => false) 7 "Ada" "Lovelace" rfl

/-- ArticleDocument from src/llm_engineering/domain/documents.py: a
Document (content mapping, platform, author identifier, denormalized
author display name) specialized with a link; collection name "articles". -/
structure ArticleDocument where
  id : Nat
  content : List (String × String)
  platform : String
  author_id : Nat
  author_full_name : String
  link : String
deriving DecidableEq, Repr

/-- The from_mongo of NoSQLBaseDocument (nosql.py lines 38-47) instantiated
at ArticleDocument: reject empty data with ValueError, pop _id (KeyError
when absent), construct the model from the remaining fields plus id with
pydantic validating every field. -/
def ArticleDocument.from_mongo (data : MDict) : Except DeserErr ArticleDocument :=
  if data.isEmpty then .error .valueError
  else
    match dictPop "_id" data with
    | none => .error .keyError
    | some (idv, rest) =>
      let args := rest ++ [("id", idv)]
      match parseUUID idv, getDict "content" args, getStr "platform" args,
          getUUID "author_id" args, getStr "author_full_name" args, getStr "link" args with
      | some u, some c, some p, some aid, some afn, some l =>
        .ok { id := u, content := c, platform := p, author_id := aid,
              author_full_name := afn, link := l }
      | _, _, _, _, _, _ => .error .validationError

/-- The bulk_find of NoSQLBaseDocument (nosql.py lines 140-149)
instantiated at ArticleDocument. The store's reply to the find call is
passed explicitly (error = OperationFailure, which the except block turns
into an empty list). The list comprehension converts each returned raw
document through from_mongo in order; its is-not-None filter is vacuous
because from_mongo never returns a null value, so the first record whose
deserialization raises makes the whole call raise that error. -/
def ArticleDocument.bulk_find (find : Except Unit (List MDict)) :
    Except DeserErr (List ArticleDocument) :=
  match find with
  | .error _ => .ok []
  | .ok instances =>
    match instances.mapM ArticleDocument.from_mongo with
    | .ok docs => .ok docs
    | .error e => .error e

/-- A raw stored article used in concrete instances below. -/
def sampleArticleDict : MDict :=
  [("_id", PVal.vstr (uuidStr 3)),
   ("content", PVal.vdict [("text", "hello")]),
   ("platform", PVal.vstr "medium"),
   ("author_id", PVal.vstr (uuidStr 9)),
   ("author_full_name", PVal.vstr "Ada Lovelace"),
   ("link", PVal.vstr "https://example.org/a")]

/-- The deserialized form of sampleArticleDict. -/
def sampleArticle : ArticleDocument :=
  { id := 3, content := [("text", "hello")], platform := "medium",
    author_id := 9, author_full_name := "Ada Lovelace", link := "https://example.org/a" }

/-- Counterexample to C3: with a store reply holding one well-formed record
followed by one empty record, bulk_find does not skip the record whose
deserialization fails and return the good one; the deserialization error
propagates out of the call. -/
theorem C3_counterexample :
    ArticleDocument.from_mongo sampleArticleDict = .ok sampleArticle
      ∧ ArticleDocument.from_mongo [] = .error DeserErr.valueError
      ∧ ArticleDocument.bulk_find (.ok [sampleArticleDict, []])
          = .error DeserErr.valueError := by
  refine ⟨by rfl, by rfl, by rfl⟩

theorem mapM_ok_of_all_ok {α β ε : Type} (f : α → Except ε β) :
    ∀ l : List α, (∀ a ∈ l, ∃ b, f a = .ok b) → ∃ bs : List β, l.mapM f = .ok bs := by
  intro l
  induction l with
  | nil => intro _; exact ⟨[], rfl⟩
  | cons a l ih =>
    intro h
    obtain ⟨b, hb⟩ := h a (List.mem_cons_self a l)
    obtain ⟨bs, hbs⟩ := ih (fun x hx => h x (List.mem_cons_of_mem a hx))
    refine ⟨b :: bs, ?_⟩
    rw [List.mapM_cons, hb, hbs]
    rfl

theorem mapM_error_of_mem_error {α β ε : Type} (f : α → Except ε β) :
    ∀ l : List α, (∃ a ∈ l, ∃ e, f a = .error e) → ∃ e, l.mapM f = .error e := by
  intro l
  induction l with
  | nil => rintro ⟨a, ha, _⟩; exact absurd ha (List.not_mem_nil a)
  | cons a l ih =>
    rintro ⟨x, hx, e, he⟩
    rw [List.mem_cons] at hx
    rw [List.mapM_cons]
    cases hfa : f a with
    | error ea => exact ⟨ea, rfl⟩
    | ok b =>
      have hxl : x ∈ l := by
        rcases hx with hx | hx
        · subst hx
          rw [hfa] at he
          exact absurd he (by simp)
        · exact hx
      obtain ⟨e2, he2⟩ := ih ⟨x, hxl, e, he⟩
      rw [he2]
      exact ⟨e2, rfl⟩

/-- C3 amended: bulk_find returns the deserialized records when every
returned record deserializes successfully, and returns an empty list when
the store query itself fails; but a record whose deserialization fails
makes the whole call raise that error instead of being skipped. -/
theorem C3_bulk_find_amended (ds : List MDict)
    (hall : ∀ d ∈ ds, ∃ doc, ArticleDocument.from_mongo d = .ok doc) :
    (∃ docs, ArticleDocument.bulk_find (.ok ds) = .ok docs
        ∧ ds.mapM ArticleDocument.from_mongo = .ok docs)
      ∧ ArticleDocument.bulk_find (.error ()) = .ok []
      ∧ (∀ ds2 : List MDict, (∃ d ∈ ds2, ∃ e, ArticleDocument.from_mongo d = .error e) →
          ∃ e, ArticleDocument.bulk_find (.ok ds2) = .error e) := by
  refine ⟨?_, rfl, ?_⟩
  · obtain ⟨docs, hdocs⟩ := mapM_ok_of_all_ok ArticleDocument.from_mongo ds hall
    refine ⟨docs, ?_, hdocs⟩
    simp only [ArticleDocument.bulk_find]
    rw [hdocs]
  · intro ds2 h
    obtain ⟨e, he⟩ := mapM_error_of_mem_error ArticleDocument.from_mongo ds2 h
    refine ⟨e, ?_⟩
    simp only [ArticleDocument.bulk_find]
    rw [he]

/-- Witness for the amended C3 at a store reply of one well-formed record:
the call returns exactly that record, the store-failure case returns the
empty list, and a reply containing the empty record raises. -/
theorem C3_bulk_find_amended_witness :
    (∃ docs, ArticleDocument.bulk_find (.ok [sampleArticleDict]) = .ok docs
        ∧ [sampleArticleDict].mapM ArticleDocument.from_mongo = .ok docs)
      ∧ ArticleDocument.bulk_find (.error ()) = .ok []
      ∧ (∀ ds2 : List MDict, (∃ d ∈ ds2, ∃ e, ArticleDocument.from_mongo d = .error e) →
          ∃ e, ArticleDocument.bulk_find (.ok ds2) = .error e) :=
  C3_bulk_find_amended [sampleArticleDict]
    (by
      intro d hd
      rw [List.mem_singleton] at hd
      subst hd
      exact ⟨sampleArticle, rfl⟩)

/-- The per-future settling step of fetch_all_data
(src/steps/feature_engineering/query_data_warehouse.py lines 53-60): the
result of one category query, or an empty list when that query raised. -/
def settleQuery {α : Type} (r : Except Unit (List α)) : List α :=
  match r with
  | .ok l => l
  | .error _ => []

/-- The fetch_all_data of query_data_warehouse.py (lines 43-62): one query
per category (articles, posts, repositories) dispatched on the worker
pool; each worker writes only its own slot of the results mapping, a
failed query is caught, logged and substituted with an empty list for its
slot only, and the mapping is returned once every future has settled. The
three query outcomes are passed explicitly and the mapping is written in
its canonical key order (the dict is key-addressed, so completion order is
immaterial). -/
def fetch_all_data {α : Type} (qArticles qPosts qRepositories : Except Unit (List α)) :
    List (String × List α) :=
  [("articles", settleQuery qArticles),
   ("posts", settleQuery qPosts),
   ("repositories", settleQuery qRepositories)]

/-- C8: whatever each category query does, the aggregate always settles all
three slots (the call itself never raises and returns only after every
query has either produced a list or been substituted); a raising query
yields an empty list in its own slot only, while the other two slots hold
their real results — shown for each of the three queries failing. -/
theorem C8_fetch_isolates_failures {α : Type} (la lp lr : List α) :
    ((fetch_all_data (α := α) (.error ()) (.ok lp) (.ok lr)).lookup "articles" = some []
        ∧ (fetch_all_data (α := α) (.error ()) (.ok lp) (.ok lr)).lookup "posts" = some lp
        ∧ (fetch_all_data (α := α) (.error ()) (.ok lp) (.ok lr)).lookup "repositories" = some lr)
      ∧ ((fetch_all_data (α := α) (.ok la) (.error ()) (.ok lr)).lookup "articles" = some la
        ∧ (fetch_all_data (α := α) (.ok la) (.error ()) (.ok lr)).lookup "posts" = some []
        ∧ (fetch_all_data (α := α) (.ok la) (.error ()) (.ok lr)).lookup "repositories" = some lr)
      ∧ ((fetch_all_data (α := α) (.ok la) (.ok lp) (.error ())).lookup "articles" = some la
        ∧ (fetch_all_data (α := α) (.ok la) (.ok lp) (.error ())).lookup "posts" = some lp
        ∧ (fetch_all_data (α := α) (.ok la) (.ok lp) (.error ())).lookup "repositories" = some [])
      ∧ (∀ qa qp qr : Except Unit (List α),
          (fetch_all_data qa qp qr).map Prod.fst = ["articles", "posts", "repositories"]) := by
  refine ⟨⟨?_, ?_, ?_⟩, ⟨?_, ?_, ?_⟩, ⟨?_, ?_, ?_⟩, ?_⟩ <;>
    simp [fetch_all_data, settleQuery, List.lookup]

/-- A vector-store document as the load stage sees it: its concrete class
is identified by the class's collection name, which is what grouping keys
on and what the insert call addresses. -/
structure VDoc where
  cls : String
deriving DecidableEq, Repr

/-- Modelled from the spec: VectorBaseDocument.group_by_class (the class
itself is not under src/): the load stage groups documents by concrete
type; groups appear in first-encounter order and keep the input order of
their members. -/
def group_by_class (documents : List VDoc) : List (String × List VDoc) :=
  ((documents.map VDoc.cls).eraseDups).map
    (fun c => (c, documents.filter (fun d => d.cls == c)))

/-- Modelled from the spec: utils.misc.batch (not under src/): splits a
list into consecutive fixed-size batches, the last one possibly shorter. -/
def batchListAux {α : Type} : Nat → List α → Nat → List (List α)
  | _, [], _ => []
  | _, _ :: _, 0 => []
  | 0, _ :: _, _ + 1 => []
  | fuel + 1, x :: rest, size + 1 =>
    (x :: rest.take size) :: batchListAux fuel (rest.drop size) (size + 1)

/-- Modelled from the spec: utils.misc.batch (not under src/), with its
recursion depth bounded by the list length. -/
def batchList {α : Type} (xs : List α) (size : Nat) : List (List α) :=
  batchListAux xs.length xs size

/-- Modelled from the spec: VectorBaseDocument.bulk_insert (the class
itself is not under src/): serialize and insert all instances in one
batch and return a success boolean — false on any write failure; it
signals failure by its return value, it does not raise. The store's write
outcome per batch is the writeOk oracle. -/
def vector_bulk_insert (writeOk : String → List VDoc → Bool) (cls : String)
    (documents : List VDoc) : Except Unit Bool :=
  .ok (writeOk cls documents)

/-- The inner batch loop of load_to_vector_db
(src/steps/feature_engineering/load_to_vector_db.py lines 20-26): try each
batch insert in turn; a raised exception is caught and aborts the whole
load with False; the boolean returned by a non-raising insert is ignored. -/
def loadBatches (insert : String → List VDoc → Except Unit Bool) (cls : String) :
    List (List VDoc) → Bool
  | [] => true
  | b :: bs =>
    match insert cls b with
    | .error _ => false
    | .ok _ => loadBatches insert cls bs

/-- The outer group loop of load_to_vector_db (lines 18-28). -/
def loadGroups (insert : String → List VDoc → Except Unit Bool) :
    List (String × List VDoc) → Bool
  | [] => true
  | (c, ds) :: gs =>
    if loadBatches insert c (batchList ds 4) then loadGroups insert gs else false

/-- The load_to_vector_db step (load_to_vector_db.py lines 11-28): group
the documents by concrete class, insert each group in fixed-size batches
of 4, return False as soon as an insert raises, True otherwise. -/
def load_to_vector_db (insert : String → List VDoc → Except Unit Bool)
    (documents : List VDoc) : Bool :=
  loadGroups insert (group_by_class documents)

/-- Every (collection, batch) pair the load stage submits, in order. -/
def allBatches (documents : List VDoc) : List (String × List VDoc) :=
  (group_by_class documents).flatMap (fun g => (batchList g.2 4).map (fun b => (g.1, b)))

/-- Counterexample to C1: with the spec's bulk_insert, whose failure signal
is the returned boolean false and which does not raise, a batch that fails
to insert does not abort the load: the call still returns true, so true is
not returned only when every batch insert succeeds. -/
theorem C1_counterexample :
    vector_bulk_insert (fun _ _ => false) "articles" [⟨"articles"⟩] = .ok false
      ∧ load_to_vector_db (vector_bulk_insert (fun _ _ => false)) [⟨"articles"⟩] = true := by
  refine ⟨rfl, by rfl⟩

theorem loadBatches_eq_true_iff (insert : String → List VDoc → Except Unit Bool)
    (cls : String) (bs : List (List VDoc)) :
    loadBatches insert cls bs = true ↔ ∀ b ∈ bs, insert cls b ≠ .error () := by
  induction bs with
  | nil => simp [loadBatches]
  | cons b bs ih =>
    simp only [loadBatches]
    cases h : insert cls b with
    | error e => cases e; simp [h]
    | ok v => simp [h, ih]

theorem loadGroups_eq_true_iff (insert : String → List VDoc → Except Unit Bool)
    (gs : List (String × List VDoc)) :
    loadGroups insert gs = true ↔
      ∀ g ∈ gs, loadBatches insert g.1 (batchList g.2 4) = true := by
  induction gs with
  | nil => simp [loadGroups]
  | cons g gs ih =>
    obtain ⟨c, ds⟩ := g
    simp only [loadGroups]
    by_cases h : loadBatches insert c (batchList ds 4) = true
    · simp [h, ih]
    · simp [h]

/-- C1 amended: the load returns false exactly when some submitted batch
insert raises an exception; an insert that merely reports failure by
returning the boolean false does not abort the load, which can then return
true. (The spec's bulk_insert never raises, so with it the load returns
true regardless of failed batches.) -/
theorem C1_load_aborts_iff_raise (insert : String → List VDoc → Except Unit Bool)
    (documents : List VDoc) :
    load_to_vector_db insert documents = true ↔
      ∀ p ∈ allBatches documents, insert p.1 p.2 ≠ .error () := by
  unfold load_to_vector_db allBatches
  rw [loadGroups_eq_true_iff]
  constructor
  · intro h p hp
    rw [List.mem_flatMap] at hp
    obtain ⟨g, hg, hpb⟩ := hp
    rw [List.mem_map] at hpb
    obtain ⟨b, hb, rfl⟩ := hpb
    exact (loadBatches_eq_true_iff insert g.1 (batchList g.2 4)).mp (h g hg) b hb
  · intro h g hg
    rw [loadBatches_eq_true_iff]
    intro b hb
    refine h (g.1, b) ?_
    rw [List.mem_flatMap]
    exact ⟨g, hg, List.mem_map_of_mem _ hb⟩

/-- A chunked document as the embedding dispatcher sees it: a vector-store
document whose category drives dispatch. -/
structure VChunk where
  category : DataCategory
deriving DecidableEq, Repr

/-- The get_category accessor of VectorBaseDocument as used by the
dispatchers. -/
def VChunk.get_category (c : VChunk) : DataCategory := c.category

/-- An embedded chunk: the chunk fields plus the embedding vector. -/
structure EmbeddedChunk where
  category : DataCategory
  embedding : List Int
deriving DecidableEq, Repr

/-- The get_category accessor of an embedded document. -/
def EmbeddedChunk.get_category (c : EmbeddedChunk) : DataCategory := c.category

/-- The stage a handler serves. -/
inductive Capability where
  | clean
  | chunk
  | embed
deriving DecidableEq, Repr

/-- The concrete cleaning handler classes named in
src/llm_engineering/application/preprocessing/dispatchers.py. -/
inductive CleaningDataHandler where
  | postCleaning
  | articleCleaning
  | repositoryCleaning
deriving DecidableEq, Repr

/-- Declared capability of a cleaning handler: every handler the cleaning
factory returns is typed CleaningDataHandler, the clean-stage strategy. -/
def CleaningDataHandler.capability (_ : CleaningDataHandler) : Capability := .clean

/-- The concrete chunking handler classes named in dispatchers.py. -/
inductive ChunkingDataHandler where
  | postChunking
  | articleChunking
  | repositoryChunking
deriving DecidableEq, Repr

/-- Declared capability of a chunking handler. -/
def ChunkingDataHandler.capability (_ : ChunkingDataHandler) : Capability := .chunk

/-- The concrete embedding handler classes named in dispatchers.py. -/
inductive EmbeddingDataHandler where
  | queryEmbedding
  | postEmbedding
  | articleEmbedding
  | repositoryEmbedding
deriving DecidableEq, Repr

/-- Declared capability of an embedding handler. -/
def EmbeddingDataHandler.capability (_ : EmbeddingDataHandler) : Capability := .embed

/-- CleaningHandlerFactory.create_handler (dispatchers.py lines 30-40):
posts, articles and repositories get their handlers; any other category
raises ValueError "Unsupported data type". -/
def CleaningHandlerFactory.create_handler (data_category : DataCategory) :
    Except Unit CleaningDataHandler :=
  if data_category = .posts then .ok .postCleaning
  else if data_category = .articles then .ok .articleCleaning
  else if data_category = .repositories then .ok .repositoryCleaning
  else .error ()

/-- ChunkingHandlerFactory.create_handler (dispatchers.py lines 64-74). -/
def ChunkingHandlerFactory.create_handler (data_category : DataCategory) :
    Except Unit ChunkingDataHandler :=
  if data_category = .posts then .ok .postChunking
  else if data_category = .articles then .ok .articleChunking
  else if data_category = .repositories then .ok .repositoryChunking
  else .error ()

/-- EmbeddingHandlerFactory.create_handler (dispatchers.py lines 98-110):
queries get a handler too, through the extra leading if; any category
outside the four raises ValueError "Unsupported data type". -/
def EmbeddingHandlerFactory.create_handler (data_category : DataCategory) :
    Except Unit EmbeddingDataHandler :=
  if data_category = .queries then .ok .queryEmbedding
  else if data_category = .posts then .ok .postEmbedding
  else if data_category = .articles then .ok .articleEmbedding
  else if data_category = .repositories then .ok .repositoryEmbedding
  else .error ()

/-- Categories the cleaning factory has a branch for. -/
def cleaningRegistered (c : DataCategory) : Bool :=
  c = DataCategory.posts ∨ c = DataCategory.articles ∨ c = DataCategory.repositories

/-- Categories the chunking factory has a branch for. -/
def chunkingRegistered (c : DataCategory) : Bool := cleaningRegistered c

/-- Categories the embedding factory has a branch for. -/
def embeddingRegistered (c : DataCategory) : Bool :=
  c = DataCategory.queries ∨ cleaningRegistered c

/-- C9: each factory returns, for every category it registers, a handler
whose declared capability matches the factory's stage, and fails with the
unsupported-category ValueError (never a null or default handler) for
every category it does not register. -/
theorem C9_factories_total_or_fail (c : DataCategory) :
    (cleaningRegistered c = true →
        ∃ h, CleaningHandlerFactory.create_handler c = .ok h ∧ h.capability = .clean)
      ∧ (cleaningRegistered c = false → CleaningHandlerFactory.create_handler c = .error ())
      ∧ (chunkingRegistered c = true →
        ∃ h, ChunkingHandlerFactory.create_handler c = .ok h ∧ h.capability = .chunk)
      ∧ (chunkingRegistered c = false → ChunkingHandlerFactory.create_handler c = .error ())
      ∧ (embeddingRegistered c = true →
        ∃ h, EmbeddingHandlerFactory.create_handler c = .ok h ∧ h.capability = .embed)
      ∧ (embeddingRegistered c = false → EmbeddingHandlerFactory.create_handler c = .error ()) := by
  cases c <;>
    simp [cleaningRegistered, chunkingRegistered, embeddingRegistered,
      CleaningHandlerFactory.create_handler, ChunkingHandlerFactory.create_handler,
      EmbeddingHandlerFactory.create_handler, CleaningDataHandler.capability,
      ChunkingDataHandler.capability, EmbeddingDataHandler.capability]

/-- Witness for C9 at a registered and an unregistered category for each
factory: posts are served by all three stages with the matching
capability, while the prompt category is refused by all three. -/
theorem C9_factories_total_or_fail_witness :
    (∃ h, CleaningHandlerFactory.create_handler .posts = .ok h ∧ h.capability = .clean)
      ∧ (∃ h, ChunkingHandlerFactory.create_handler .posts = .ok h ∧ h.capability = .chunk)
      ∧ (∃ h, EmbeddingHandlerFactory.create_handler .posts = .ok h ∧ h.capability = .embed)
      ∧ CleaningHandlerFactory.create_handler .prompt = .error ()
      ∧ ChunkingHandlerFactory.create_handler .prompt = .error ()
      ∧ EmbeddingHandlerFactory.create_handler .prompt = .error () :=
  ⟨(C9_factories_total_or_fail .posts).1 (by decide),
   (C9_factories_total_or_fail .posts).2.2.1 (by decide),
   (C9_factories_total_or_fail .posts).2.2.2.2.1 (by decide),
   (C9_factories_total_or_fail .prompt).2.1 (by decide),
   (C9_factories_total_or_fail .prompt).2.2.2.1 (by decide),
   (C9_factories_total_or_fail .prompt).2.2.2.2.2 (by decide)⟩

/-- Errors EmbeddingDispatcher.dispatch can raise: the batch-homogeneity
assertion, the factory's unsupported-category ValueError, and the
IndexError of taking element 0 of an empty embed result on the singular
path. -/
inductive DispatchErr where
  | assertionError
  | valueError
  | indexError
deriving DecidableEq, Repr

/-- The argument of EmbeddingDispatcher.dispatch: one document or a list. -/
inductive DInput where
  | single (d : VChunk)
  | many (l : List VChunk)
deriving DecidableEq, Repr

/-- The result of EmbeddingDispatcher.dispatch: one document or a list. -/
inductive DOutput where
  | single (d : EmbeddedChunk)
  | many (l : List EmbeddedChunk)
deriving DecidableEq, Repr

/-- EmbeddingDispatcher.dispatch (dispatchers.py lines 116-143): wrap a
bare document into a list, short-circuit an empty list, assert that all
categories equal the first element's, obtain the handler from the factory,
embed the batch, and unwrap a single result when the input was single.
The handler's embed_batch body lives outside src/, so it is a parameter;
the dispatcher's control flow is fixed. -/
def EmbeddingDispatcher.dispatch
    (embed_batch : EmbeddingDataHandler → List VChunk → List EmbeddedChunk)
    (input : DInput) : Except DispatchErr DOutput :=
  let is_list : Bool := match input with | .many _ => true | .single _ => false
  let data_model : List VChunk := match input with | .many l => l | .single d => [d]
  match data_model with
  | [] => .ok (.many [])
  | d0 :: rest =>
    if (d0 :: rest).all (fun dm => dm.get_category == d0.get_category) then
      match EmbeddingHandlerFactory.create_handler d0.get_category with
      | .error _ => .error .valueError
      | .ok handler =>
        let embedded_chunk_model := embed_batch handler (d0 :: rest)
        if is_list then .ok (.many embedded_chunk_model)
        else
          match embedded_chunk_model with
          | [] => .error .indexError
          | e0 :: _ => .ok (.single e0)
    else .error .assertionError

/-- C4: a list input containing two documents of differing categories makes
dispatch fail with the homogeneity assertion error, whatever the handlers
would compute — the quantification over embed_batch shows no handler is
invoked, and the assertion sits before the factory call in the control
flow, so no handler is constructed either. -/
theorem C4_mixed_batch_asserts
    (embed_batch : EmbeddingDataHandler → List VChunk → List EmbeddedChunk)
    (l : List VChunk) (a b : VChunk) (ha : a ∈ l) (hb : b ∈ l)
    (hne : a.get_category ≠ b.get_category) :
    EmbeddingDispatcher.dispatch embed_batch (.many l) = .error .assertionError := by
  cases l with
  | nil => cases ha
  | cons d0 rest =>
    have hfalse : ((d0 :: rest).all (fun dm => dm.get_category == d0.get_category)) = false := by
      rw [List.all_eq_false]
      by_cases hac : a.get_category = d0.get_category
      · refine ⟨b, hb, ?_⟩
        simp only [beq_iff_eq]
        rw [← hac]
        intro hcontra
        exact hne (by rw [hcontra])
      · exact ⟨a, ha, by simpa using hac⟩
    simp [EmbeddingDispatcher.dispatch, hfalse]

/-- Witness for C4: a two-element batch mixing posts and articles is
rejected with the assertion error. -/
theorem C4_mixed_batch_asserts_witness :
    EmbeddingDispatcher.dispatch (fun _ l => l.map (fun c => ⟨c.category, [0]⟩))
      (.many [⟨.posts⟩, ⟨.articles⟩]) = .error .assertionError :=
  C4_mixed_batch_asserts _ [⟨.posts⟩, ⟨.articles⟩] ⟨.posts⟩ ⟨.articles⟩
    (by decide) (by decide) (by decide)

theorem embeddingRegistered_create (c : DataCategory)
    (h : embeddingRegistered c = true) :
    ∃ handler, EmbeddingHandlerFactory.create_handler c = .ok handler := by
  cases c <;> simp_all [embeddingRegistered, cleaningRegistered,
    EmbeddingHandlerFactory.create_handler]

/-- C5: dispatch preserves the singular/plural shape of its input — the
empty list short-circuits to the empty list whatever the handlers would do
(no handler is constructed: the short-circuit sits before the factory
call); a bare registered document comes back as a bare embedded document,
not a one-element list, provided the handler embeds batches
length-preservingly as the spec requires; and a homogeneous registered
list comes back as a list. -/
theorem C5_shape_preservation
    (embed_batch : EmbeddingDataHandler → List VChunk → List EmbeddedChunk)
    (hlen : ∀ handler l, (embed_batch handler l).length = l.length) :
    EmbeddingDispatcher.dispatch embed_batch (.many []) = .ok (.many [])
      ∧ (∀ d : VChunk, embeddingRegistered d.get_category = true →
          ∃ e, EmbeddingDispatcher.dispatch embed_batch (.single d) = .ok (.single e))
      ∧ (∀ (d0 : VChunk) (rest : List VChunk),
          (∀ x ∈ d0 :: rest, x.get_category = d0.get_category) →
          embeddingRegistered d0.get_category = true →
          ∃ out, EmbeddingDispatcher.dispatch embed_batch (.many (d0 :: rest))
            = .ok (.many out)) := by
  refine ⟨rfl, ?_, ?_⟩
  · intro d hreg
    obtain ⟨handler, hc⟩ := embeddingRegistered_create _ hreg
    have hlen1 := hlen handler [d]
    cases hout : embed_batch handler [d] with
    | nil => rw [hout] at hlen1; simp at hlen1
    | cons e0 es =>
      exact ⟨e0, by simp [EmbeddingDispatcher.dispatch, hc, hout]⟩
  · intro d0 rest hhom hreg
    obtain ⟨handler, hc⟩ := embeddingRegistered_create _ hreg
    have hall : ((d0 :: rest).all (fun dm => dm.get_category == d0.get_category)) = true := by
      rw [List.all_eq_true]
      intro x hx
      simpa using hhom x hx
    exact ⟨embed_batch handler (d0 :: rest),
      by simp [EmbeddingDispatcher.dispatch, hall, hc]⟩

/-- Witness for C5 with a concrete length-preserving embedding: the empty
list maps to the empty list, a bare post document to a bare embedded
document, and a singleton article list to a list. -/
theorem C5_shape_preservation_witness :
    EmbeddingDispatcher.dispatch (fun _ l => l.map (fun c => ⟨c.category, [1]⟩))
        (.many []) = .ok (.many [])
      ∧ (∃ e, EmbeddingDispatcher.dispatch (fun _ l => l.map (fun c => ⟨c.category, [1]⟩))
          (.single ⟨.posts⟩) = .ok (.single e))
      ∧ (∃ out, EmbeddingDispatcher.dispatch (fun _ l => l.map (fun c => ⟨c.category, [1]⟩))
          (.many [⟨.articles⟩]) = .ok (.many out)) :=
  ⟨(C5_shape_preservation _ (fun _ l => by simp)).1,
   (C5_shape_preservation _ (fun _ l => by simp)).2.1 ⟨.posts⟩ (by decide),
   (C5_shape_preservation _ (fun _ l => by simp)).2.2 ⟨.articles⟩ []
     (by intro x hx; rw [List.mem_singleton] at hx; rw [hx]) (by decide)⟩
